import Mathlib

/-!
# Authentication & Session Lifecycle Manager — verification development

Shallow embedding of the auth/session subsystem of the Genesys admin app
(`authService.js` and the boot sequence of `app.js`), together with proofs of
the specified properties.

Modelling conventions:
* `sessionStorage` (tab-scoped storage) is modelled by `TabStorage`, a record
  with one field per storage key the subsystem uses
  (`gc_access_token`, `gc_expires_at`, `pkce_verifier`, `oauth_state`);
  `none` means the key is absent, `some s` that the string `s` is stored.
* `localStorage` (origin-shared storage) is modelled by the single slot the
  subsystem uses (`gc_tab_handoff`), of type `Option HandoffValue`; the
  outcome of `JSON.parse` on the stored text is modelled by `HandoffValue`
  (either the parsed record or `corrupt` for a parse failure).
* JavaScript truthiness of a `getItem` result (null or empty string are
  falsy) is `jsTruthy`.
* `Date.now()` values and millisecond durations are `Int`.
* JavaScript `Number(s)` is modelled by `jsNumber`, restricted to the values
  this code stores and compares: optional-sign decimal integer strings parse
  to that integer, and every other string (including "NaN", produced by
  `setToken` from a non-numeric `expires_in`) is `none`, standing for a
  non-finite result.  (JS corner cases never reached by this code — e.g.
  `Number("")`, which is guarded by a truthiness check before every `Number`
  call here — are out of scope of the model.)
-/

/-- JS truthiness of a `Storage.getItem` result: `null` and `""` are falsy. -/
def jsTruthy : Option String → Bool
  | none => false
  | some s => if s = "" then false else true

/-- Decimal digit value of a character, if it is one. -/
def decDigit? (c : Char) : Option Nat :=
  if c.toNat < 48 ∨ 57 < c.toNat then none else some (c.toNat - 48)

/-- Parse a non-empty all-digits character list as a natural number. -/
def decNat? : List Char → Option Nat
  | [] => none
  | cs =>
      cs.foldl
        (fun acc c => acc.bind fun n => (decDigit? c).map fun d => n * 10 + d)
        (some 0)

/-- Model of JavaScript `Number(s)` on the strings this subsystem stores
(`String(integer)` or `"NaN"`) and on arbitrary corrupt storage text:
optional-sign decimal integer strings parse to that integer; anything else is
`none`, standing for a non-finite (`NaN`) result, which every caller guards
with `Number.isFinite`. -/
def jsNumber (s : String) : Option Int :=
  match s.data with
  | '-' :: rest => (decNat? rest).map fun n => -(n : Int)
  | cs => (decNat? cs).map fun n => (n : Int)

/-- `const EXPIRY_SKEW_MS = 60 * 1000` — safety margin so a token is not used
when it is about to expire mid-request. -/
def EXPIRY_SKEW_MS : Int := 60 * 1000

/-- `const WARNING_BEFORE_MS = 2 * 60 * 1000` — warning fires 2 minutes before
expiry. -/
def WARNING_BEFORE_MS : Int := 2 * 60 * 1000

/-- Handoff freshness window: `Date.now() - ts > 30_000` marks a stale
handoff. -/
def HANDOFF_MAX_AGE_MS : Int := 30000

/-- The tab-scoped `sessionStorage` keys used by the auth service.
`accessToken` = `gc_access_token`, `expiresAt` = `gc_expires_at` (a string,
epoch ms), `pkceVerifier` = `pkce_verifier`, `oauthState` = `oauth_state`. -/
structure TabStorage where
  accessToken : Option String
  expiresAt : Option String
  pkceVerifier : Option String
  oauthState : Option String
  deriving Repr, DecidableEq

/-- Outcome of `JSON.parse` on the text stored under `gc_tab_handoff`:
either the destructured record `{ token, expiresAt, ts }` or a parse
failure (`corrupt`), which the source catches and ignores. -/
inductive HandoffValue where
  | record (token : String) (expiresAt : String) (ts : Int)
  | corrupt
  deriving Repr, DecidableEq

/-- `consumeTabHandoff()`: if this tab has no session but a handoff exists in
`localStorage`, import it into `sessionStorage` and remove the handoff.
Input: the tab's storage, the shared `gc_tab_handoff` slot, and `Date.now()`.
Output: the updated tab storage and shared slot. -/
def consumeTabHandoff (tab : TabStorage) (shared : Option HandoffValue)
    (now : Int) : TabStorage × Option HandoffValue :=
  if jsTruthy tab.accessToken then (tab, shared)
  else
    match shared with
    | none => (tab, none)
    | some (HandoffValue.record token expiresAt ts) =>
        if now - ts > HANDOFF_MAX_AGE_MS then
          (tab, none)
        else
          ({ tab with accessToken := some token, expiresAt := some expiresAt },
           none)
    | some HandoffValue.corrupt => (tab, none)

/-- `getValidAccessToken()`: returns the stored token while it is still usable
(`Date.now() < expiresAt - EXPIRY_SKEW_MS`), else `null`. -/
def getValidAccessToken (st : TabStorage) (now : Int) : Option String :=
  match st.accessToken, st.expiresAt with
  | some accessToken, some expiresAtStr =>
      if accessToken = "" ∨ expiresAtStr = "" then none
      else
        match jsNumber expiresAtStr with
        | none => none
        | some expiresAt =>
            if now ≥ expiresAt - EXPIRY_SKEW_MS then none
            else some accessToken
  | _, _ => none

/-- `clearAuthSession()`: removes all four auth keys from `sessionStorage`. -/
def clearAuthSession (_st : TabStorage) : TabStorage :=
  { accessToken := none, expiresAt := none,
    pkceVerifier := none, oauthState := none }

/-- The numeric value JavaScript obtains from the token response's
`expires_in` field (`Number(token.expires_in)`): `some n` when it coerces
to the integer `n`, `none` when it coerces to `NaN`. -/
abbrev ExpiresIn := Option Int

/-- Token-endpoint response as used by `setToken` / `ensureAuthenticatedWithMe`:
`access_token` and the numeric coercion of `expires_in`. -/
structure TokenResponse where
  access_token : String
  expires_in : ExpiresIn
  deriving Repr, DecidableEq

/-- The string `String(Date.now() + Number(expires_in) * 1000)` that `setToken`
stores under `gc_expires_at`; a non-numeric `expires_in` yields `"NaN"`. -/
def expiresAtStoredString (now : Int) (expires_in : ExpiresIn) : String :=
  match expires_in with
  | some n => toString (now + n * 1000)
  | none => "NaN"

/-- `setToken(token)`: stores the access token and the computed absolute
expiry string. -/
def setToken (now : Int) (token : TokenResponse) (st : TabStorage) : TabStorage :=
  { st with accessToken := some token.access_token,
            expiresAt := some (expiresAtStoredString now token.expires_in) }

/-- The pair of one-shot timers `scheduleTokenRefresh` may arm: each field is
`some d` when the corresponding `setTimeout` is registered with delay `d` ms,
`none` when it is not armed.  An empty pair means the returned canceller has
nothing to clear (a no-op). -/
structure RefreshTimers where
  warningIn : Option Int
  expireIn : Option Int
  deriving Repr, DecidableEq

/-- `scheduleTokenRefresh({onExpiringSoon, onSessionExpired})`: reads the
stored expiry; absent or non-finite expiry arms nothing.  Otherwise arms the
warning timer at `expiresAt - WARNING_BEFORE_MS` (when still in the future and
a warning callback was supplied) and the expiry timer at
`expiresAt - EXPIRY_SKEW_MS` (when still in the future). -/
def scheduleTokenRefresh (st : TabStorage) (now : Int)
    (hasOnExpiringSoon : Bool) : RefreshTimers :=
  match st.expiresAt with
  | none => { warningIn := none, expireIn := none }
  | some expiresAtStr =>
      if expiresAtStr = "" then { warningIn := none, expireIn := none }
      else
        match jsNumber expiresAtStr with
        | none => { warningIn := none, expireIn := none }
        | some expiresAt =>
            let warningIn := expiresAt - WARNING_BEFORE_MS - now
            let expireIn := expiresAt - EXPIRY_SKEW_MS - now
            { warningIn :=
                if 0 < warningIn ∧ hasOnExpiringSoon = true then some warningIn
                else none,
              expireIn := if 0 < expireIn then some expireIn else none }

/-- The argument the warning timer passes to `onExpiringSoon` when it fires:
`Math.round((expiresAt - Date.now()) / 1000)` (JS `Math.round` is
floor of `x + 1/2`). -/
def warningFireSecsLeft (expiresAt fireTime : Int) : Int :=
  Int.fdiv (expiresAt - fireTime + 500) 1000

/-! ## PKCE helpers: base64url, random bytes, challenge construction -/

/-- The standard base64 alphabet used by `btoa`. -/
def base64Alphabet : List Char :=
  "ABCDEFGHIJKLMNOPQRSTUVWXYZabcdefghijklmnopqrstuvwxyz0123456789+/".data

/-- The base64 character for a 6-bit group. -/
def b64Char (n : Nat) : Char := base64Alphabet.getD n 'A'

/-- Base64 encoding of a byte list, three bytes to four characters, with `=`
padding on a ragged tail — the characters `btoa(String.fromCharCode(...bytes))`
produces. -/
def base64Chunks : List Nat → List Char
  | [] => []
  | [a] => [b64Char (a / 4), b64Char (a % 4 * 16), '=', '=']
  | [a, b] =>
      [b64Char (a / 4), b64Char (a % 4 * 16 + b / 16), b64Char (b % 16 * 4), '=']
  | a :: b :: c :: rest =>
      b64Char (a / 4) :: b64Char (a % 4 * 16 + b / 16) ::
        b64Char (b % 16 * 4 + c / 64) :: b64Char (c % 64) :: base64Chunks rest

/-- `btoa` applied to the binary string `String.fromCharCode(...bytes)`. -/
def btoa (bytes : List Nat) : String := String.mk (base64Chunks bytes)

/-- The single-character substitutions `.replace(/\+/g, "-").replace(/\//g, "_")`
performed by `base64UrlEncode`, as a character map. -/
def b64ToUrlChar (c : Char) : Char :=
  if c = '+' then '-' else if c = '/' then '_' else c

/-- The trailing-padding strip `.replace(/=+$/g, "")`, at character level. -/
def dropTrailingEq (cs : List Char) : List Char :=
  (cs.reverse.dropWhile fun c => c == '=').reverse

/-- `base64UrlEncode(bytes)`: base64 via `btoa`, then `+` → `-`, `/` → `_`,
and trailing `=` padding removed. -/
def base64UrlEncode (bytes : List Nat) : String :=
  String.mk (dropTrailingEq ((base64Chunks bytes).map b64ToUrlChar))

/-- The base64url character set (for stating that `base64UrlEncode` emits
base64url without padding). -/
def base64UrlAlphabet : List Char :=
  "ABCDEFGHIJKLMNOPQRSTUVWXYZabcdefghijklmnopqrstuvwxyz0123456789-_".data

/-- UTF-8 encoding of one character (code point → 1 to 4 bytes). -/
def utf8BytesOfChar (c : Char) : List Nat :=
  let n := c.toNat
  if n < 128 then [n]
  else if n < 2048 then [192 + n / 64, 128 + n % 64]
  else if n < 65536 then [224 + n / 4096, 128 + n / 64 % 64, 128 + n % 64]
  else [240 + n / 262144, 128 + n / 4096 % 64, 128 + n / 64 % 64, 128 + n % 64]

/-- `new TextEncoder().encode(s)`: the UTF-8 bytes of a string. -/
def textEncoderBytes (s : String) : List Nat :=
  s.data.flatMap utf8BytesOfChar

/-- The entropy source behind `crypto.getRandomValues`: the successive byte
draws a cryptographically secure generator produces, consumed one draw per
call. -/
structure Rng where
  draws : List (List Nat)
  deriving Repr, DecidableEq

/-- Pop the next draw from the entropy source. -/
def Rng.take (r : Rng) : List Nat × Rng :=
  match r.draws with
  | [] => ([], ⟨[]⟩)
  | d :: rest => (d, ⟨rest⟩)

/-- `randomBytes(len)`: fills a `Uint8Array(len)` from `crypto.getRandomValues`.
The next draw of the entropy source, truncated or zero-padded to exactly `len`
bytes (a well-formed source supplies draws of the requested length). -/
def randomBytes (len : Nat) (r : Rng) : List Nat × Rng :=
  let t := r.take
  ((t.1 ++ List.replicate len 0).take len, t.2)

/-- `buildPkce()`: verifier = base64url of 32 random bytes; challenge =
base64url of the SHA-256 digest of the verifier's text-encoded bytes.
`sha256` abstracts the browser primitive `crypto.subtle.digest("SHA-256", ·)`,
which is not part of this repository. -/
def buildPkce (sha256 : List Nat → List Nat) (rng : Rng) :
    (String × String) × Rng :=
  let rb := randomBytes 32 rng
  let verifier := base64UrlEncode rb.1
  let challenge := base64UrlEncode (sha256 (textEncoderBytes verifier))
  ((verifier, challenge), rb.2)

/-! ## URL, world state, configuration, observable events -/

/-- The parts of `window.location` this subsystem reads and rewrites:
`origin`, `pathname`, the query parameters (`location.search`, in order), and
the fragment (`location.hash`). -/
structure Url where
  origin : String
  pathname : String
  query : List (String × String)
  hash : String
  deriving Repr, DecidableEq

/-- `clearQueryPreserveHash()`:
`history.replaceState({}, title, location.origin + location.pathname + location.hash)`
— drops every query parameter, keeps origin, path and fragment. -/
def clearQueryPreserveHash (u : Url) : Url :=
  { u with query := [] }

/-- `CONFIG` fields the auth service reads.  A field the deployment leaves
undefined is modelled as `""` (both are JS-falsy and the code only tests
truthiness); `oauthScopes` is `none` when undefined (the code defaults it to
`["openid"]`). -/
structure Config where
  authHost : String
  oauthClientId : String
  oauthRedirectUri : String
  oauthScopes : Option (List String)
  deriving Repr, DecidableEq

/-- Observable events of one boot: PKCE generation (entropy consumed for a
fresh verifier/challenge), session clearing (`clearAuthSession`), the POST to
the token endpoint, the `/users/me` identity check, and a full-page
navigation. -/
inductive Ev where
  | pkceGenerated
  | clearedSession
  | tokenExchange (code : String)
  | usersMeCall (accessToken : String)
  | navigate (url : String)
  deriving Repr, DecidableEq

/-- The mutable browser state one tab sees: its `sessionStorage`, the shared
`localStorage` handoff slot, the visible URL, and where
`window.location.href = ...` navigated, if anywhere. -/
structure World where
  tab : TabStorage
  shared : Option HandoffValue
  url : Url
  navigatedTo : Option String
  deriving Repr, DecidableEq

/-- Percent-encode a byte as `%XX` unless `encodeURIComponent` leaves it
intact (alphanumerics and `- _ . ! ~ * ' ( )`). -/
def isURIUnreserved (b : Nat) : Bool :=
  decide ((48 ≤ b ∧ b ≤ 57) ∨ (65 ≤ b ∧ b ≤ 90) ∨ (97 ≤ b ∧ b ≤ 122) ∨
    b = 45 ∨ b = 95 ∨ b = 46 ∨ b = 33 ∨ b = 126 ∨ b = 42 ∨ b = 39 ∨
    b = 40 ∨ b = 41)

/-- Uppercase hexadecimal digit. -/
def hexDigitChar (n : Nat) : Char :=
  if n < 10 then Char.ofNat (48 + n) else Char.ofNat (55 + n)

/-- JavaScript `encodeURIComponent`: UTF-8 encode, percent-escape every byte
outside the unreserved set. -/
def encodeURIComponent (s : String) : String :=
  String.mk ((textEncoderBytes s).flatMap fun b =>
    if isURIUnreserved b then [Char.ofNat b]
    else ['%', hexDigitChar (b / 16), hexDigitChar (b % 16)])

/-- The authorization-endpoint URL `startLoginRedirect` builds. -/
def authorizationUrl (cfg : Config) (challenge state : String) : String :=
  "https://" ++ cfg.authHost ++ "/oauth/authorize" ++
    "?response_type=code" ++
    "&client_id=" ++ encodeURIComponent cfg.oauthClientId ++
    "&redirect_uri=" ++ encodeURIComponent cfg.oauthRedirectUri ++
    "&code_challenge_method=S256" ++
    "&code_challenge=" ++ encodeURIComponent challenge ++
    "&state=" ++ encodeURIComponent state ++
    "&scope=" ++
      encodeURIComponent (String.intercalate " " (cfg.oauthScopes.getD ["openid"]))

/-! ## Authorization flow controller and session bootstrapper -/

/-- Result of `startLoginRedirect()`: the world and entropy source after the
call, the observable events it produced, and `some message` when it threw. -/
structure RedirectOut where
  world : World
  rng : Rng
  trace : List Ev
  err : Option String
  deriving Repr

/-- `startLoginRedirect()`: throws when the OAuth client id or redirect URI is
missing (before any entropy is drawn, anything is persisted, or any
navigation); otherwise generates a PKCE pair and a random `state`, persists
the Pending Authorization `{verifier, state}` to tab storage, and navigates to
the authorization URL. -/
def startLoginRedirect (cfg : Config) (sha256 : List Nat → List Nat)
    (rng : Rng) (w : World) : RedirectOut :=
  if cfg.oauthClientId = "" then
    ⟨w, rng, [], some "Missing CONFIG.oauthClientId"⟩
  else if cfg.oauthRedirectUri = "" then
    ⟨w, rng, [], some "Missing CONFIG.oauthRedirectUri"⟩
  else
    let pk := buildPkce sha256 rng
    let st := randomBytes 16 pk.2
    let state := base64UrlEncode st.1
    let tab := { w.tab with pkceVerifier := some pk.1.1, oauthState := some state }
    let authUrl := authorizationUrl cfg pk.1.2 state
    ⟨{ w with tab := tab, navigatedTo := some authUrl }, st.2,
     [Ev.pkceGenerated, Ev.navigate authUrl], none⟩

/-- The parsed `/users/me` identity payload (the field `app.js` reads). -/
structure Me where
  name : String
  deriving Repr, DecidableEq

/-- Network oracle for one boot: the clock, the token endpoint's response to
the (at most one) code exchange, and the identity endpoint's response to the
(at most one) `/users/me` call.  `Except.error` is a thrown
`Token exchange failed` / `/users/me failed` (non-OK HTTP status or transport
failure). -/
structure Env where
  now : Int
  exchangeResult : Except String TokenResponse
  meResult : Except String Me

/-- `exchangeCodeForToken(code)`: throws without calling the endpoint when no
PKCE verifier is stored; otherwise POSTs to the token endpoint (the
`tokenExchange` event) and returns the oracle's response. -/
def exchangeCodeForToken (env : Env) (tab : TabStorage) (code : String) :
    List Ev × Except String TokenResponse :=
  if jsTruthy tab.pkceVerifier = false then
    ([], Except.error "Missing pkce_verifier (session lost).")
  else
    ([Ev.tokenExchange code], env.exchangeResult)

/-- Result contract of `ensureAuthenticatedWithMe`. -/
inductive BootResult where
  | authenticated (accessToken : String) (me : Me)
  | redirecting
  deriving Repr, DecidableEq

/-- A finished boot: final world, remaining entropy, observable events in
order, and the returned value (or the propagated thrown error). -/
structure BootOut where
  world : World
  rng : Rng
  trace : List Ev
  result : Except String BootResult
  deriving Repr

/-- The shared fail-closed leg of `ensureAuthenticatedWithMe`:
`clearAuthSession(); await startLoginRedirect(); return { status: "redirecting" }`
(a configuration error thrown by `startLoginRedirect` propagates). -/
def failClosedRestart (cfg : Config) (sha256 : List Nat → List Nat)
    (rng : Rng) (w : World) (evs : List Ev) : BootOut :=
  let w2 := { w with tab := clearAuthSession w.tab }
  let r := startLoginRedirect cfg sha256 rng w2
  ⟨r.world, r.rng, evs ++ Ev.clearedSession :: r.trace,
   match r.err with
   | some e => Except.error e
   | none => Except.ok BootResult.redirecting⟩

/-- `ensureAuthenticatedWithMe()`: consume any cross-tab handoff, then
(A) if the URL carries a `code`, validate `state` and exchange the code —
fail-closed on missing/mismatched state, exchange failure or identity-check
failure; (B) else reuse a stored still-valid token, fail-closed if its
identity check fails; (C) else start a login redirect. -/
def ensureAuthenticatedWithMe (cfg : Config) (sha256 : List Nat → List Nat)
    (env : Env) (rng : Rng) (w0 : World) : BootOut :=
  let hc := consumeTabHandoff w0.tab w0.shared env.now
  let w := { w0 with tab := hc.1, shared := hc.2 }
  match w.url.query.lookup "code" with
  | some code =>
      let returnedState := (w.url.query.lookup "state").getD ""
      let expectedState := (w.tab.oauthState).getD ""
      if expectedState = "" ∨ returnedState ≠ expectedState then
        failClosedRestart cfg sha256 rng w []
      else
        let ex := exchangeCodeForToken env w.tab code
        match ex.2 with
        | Except.error _ => failClosedRestart cfg sha256 rng w ex.1
        | Except.ok token =>
            let w1 := { w with
              tab := { setToken env.now token w.tab with
                         pkceVerifier := none, oauthState := none },
              url := clearQueryPreserveHash w.url }
            let evs := ex.1 ++ [Ev.usersMeCall token.access_token]
            match env.meResult with
            | Except.ok me =>
                ⟨w1, rng, evs,
                 Except.ok (BootResult.authenticated token.access_token me)⟩
            | Except.error _ => failClosedRestart cfg sha256 rng w1 evs
  | none =>
      match getValidAccessToken w.tab env.now with
      | some existing =>
          let evs := [Ev.usersMeCall existing]
          match env.meResult with
          | Except.ok me =>
              ⟨w, rng, evs, Except.ok (BootResult.authenticated existing me)⟩
          | Except.error _ => failClosedRestart cfg sha256 rng w evs
      | none =>
          let r := startLoginRedirect cfg sha256 rng w
          ⟨r.world, r.rng, r.trace,
           match r.err with
           | some e => Except.error e
           | none => Except.ok BootResult.redirecting⟩

/-- The world after the boot's opening `consumeTabHandoff()` call (the `w`
the rest of `ensureAuthenticatedWithMe` operates on). -/
def afterHandoff (env : Env) (w : World) : World :=
  { w with tab := (consumeTabHandoff w.tab w.shared env.now).1,
           shared := (consumeTabHandoff w.tab w.shared env.now).2 }

/-- The world after a successful code exchange inside the boot: token stored
(`setToken`), query cleared (`clearQueryPreserveHash`), transient
verifier/state removed. -/
def afterExchange (env : Env) (token : TokenResponse) (w : World) : World :=
  { w with
    tab := { setToken env.now token (consumeTabHandoff w.tab w.shared env.now).1 with
               pkceVerifier := none, oauthState := none },
    shared := (consumeTabHandoff w.tab w.shared env.now).2,
    url := clearQueryPreserveHash w.url }

/-- What the page shows after `main()` in `app.js` settles: the in-page fatal
error card (the boot rejected), the "redirecting" header (terminal for this
load), or the running app. -/
inductive MainOutcome where
  | fatalError (message : String)
  | redirecting
  | running (userName : String)
  deriving Repr, DecidableEq

/-- The boot sequence of `app.js`: `ensureAuthenticatedWithMe()` awaited inside
`main`, whose rejection is caught by `.catch` and rendered with
`renderFatalError`; an authenticated result shows `res.me?.name || "user"`. -/
def mainOutcome (b : BootOut) : MainOutcome :=
  match b.result with
  | Except.error e => MainOutcome.fatalError e
  | Except.ok BootResult.redirecting => MainOutcome.redirecting
  | Except.ok (BootResult.authenticated _ me) =>
      MainOutcome.running (if me.name = "" then "user" else me.name)

/-- Result of the expiry timer firing. -/
structure ExpiryFireOut where
  world : World
  rng : Rng
  trace : List Ev
  err : Option String
  calledOnSessionExpired : Bool
  deriving Repr

/-- The expiry timer's callback in `scheduleTokenRefresh`: invoke
`onSessionExpired` when supplied, clear the auth session, re-initiate login. -/
def expiryTimerFire (cfg : Config) (sha256 : List Nat → List Nat) (rng : Rng)
    (hasOnSessionExpired : Bool) (w : World) : ExpiryFireOut :=
  let w2 := { w with tab := clearAuthSession w.tab }
  let r := startLoginRedirect cfg sha256 rng w2
  ⟨r.world, r.rng, Ev.clearedSession :: r.trace, r.err, hasOnSessionExpired⟩

/-- The `state` comparison `ensureAuthenticatedWithMe` performs on the return
leg: JS-defaulted returned and expected states, mismatching when the stored
state is missing/empty or differs from the returned one. -/
def stateMismatch (w : World) : Prop :=
  (w.tab.oauthState).getD "" = "" ∨
    (w.url.query.lookup "state").getD "" ≠ (w.tab.oauthState).getD ""

instance (w : World) : Decidable (stateMismatch w) := by
  unfold stateMismatch; infer_instance

/-! ## General lemmas about the embedded operations -/

theorem jsNumber_empty : jsNumber "" = none := rfl

theorem jsNumber_NaN : jsNumber "NaN" = none := by decide

theorem consumeTabHandoff_oauthState (t : TabStorage) (s : Option HandoffValue)
    (n : Int) : (consumeTabHandoff t s n).1.oauthState = t.oauthState := by
  unfold consumeTabHandoff
  split
  · rfl
  · split <;> first | rfl | (split <;> rfl)

theorem consumeTabHandoff_pkceVerifier (t : TabStorage) (s : Option HandoffValue)
    (n : Int) : (consumeTabHandoff t s n).1.pkceVerifier = t.pkceVerifier := by
  unfold consumeTabHandoff
  split
  · rfl
  · split <;> first | rfl | (split <;> rfl)

theorem clearAuthSession_eq (st : TabStorage) :
    clearAuthSession st = ⟨none, none, none, none⟩ := rfl

theorem getValidAccessToken_some_iff (st : TabStorage) (now : Int) (tok : String) :
    getValidAccessToken st now = some tok ↔
      st.accessToken = some tok ∧ tok ≠ "" ∧
        ∃ es E, st.expiresAt = some es ∧ jsNumber es = some E ∧
          now < E - 60000 := by
  obtain ⟨a, e, p, o⟩ := st
  rcases a with _ | a <;> rcases e with _ | es <;>
    simp only [getValidAccessToken, EXPIRY_SKEW_MS] <;> try simp
  cases hn : jsNumber es with
  | none => simp [hn]
  | some E =>
      have hes : es ≠ "" := by
        intro h
        subst h
        rw [jsNumber_empty] at hn
        cases hn
      simp only [hn, Option.some.injEq]
      split_ifs with hle
      · constructor
        · rintro ⟨-, h⟩
          cases h
        · rintro ⟨rfl, -, x, hx, hlt⟩
          cases hx
          omega
      · constructor
        · rintro ⟨⟨ha, -⟩, h⟩
          cases h
          exact ⟨rfl, ha, E, rfl, by omega⟩
        · rintro ⟨rfl, htok, x, hx, hlt⟩
          cases hx
          exact ⟨⟨htok, hes⟩, rfl⟩

theorem expiry_unparsable_guard (st : TabStorage) (now : Int)
    (h : st.expiresAt = none ∨ ∃ es, st.expiresAt = some es ∧ jsNumber es = none) :
    getValidAccessToken st now = none ∧
      ∀ cb, scheduleTokenRefresh st now cb = ⟨none, none⟩ := by
  obtain ⟨a, e, p, o⟩ := st
  rcases h with h | ⟨es, h, hn⟩ <;> dsimp only at h <;> subst h
  · refine ⟨?_, fun cb => rfl⟩
    rcases a with _ | a <;> rfl
  · refine ⟨?_, fun cb => ?_⟩
    · unfold getValidAccessToken
      rcases a with _ | a
      · rfl
      · dsimp only
        split_ifs with hif
        · rfl
        · simp [hn]
    · unfold scheduleTokenRefresh
      dsimp only
      split_ifs with hif
      · rfl
      · simp [hn]

/-! ## Claim theorems -/

/-- C2: `getValidAccessToken` returns the stored access token exactly when
both a token and an expiry are stored (non-empty), the expiry parses as a
finite number, and the current time is strictly less than `expiresAt − 60000`
ms; otherwise it returns `null`.  In particular, for a token stored with
`expiresAt = now + N`, it returns the token if and only if `N > 60000` ms
(`N = 60000` yields `null`). -/
theorem token_validity_check :
    (∀ (st : TabStorage) (now : Int) (tok : String),
      getValidAccessToken st now = some tok ↔
        st.accessToken = some tok ∧ tok ≠ "" ∧
          ∃ es E, st.expiresAt = some es ∧ jsNumber es = some E ∧
            now < E - 60000) ∧
    (∀ (st : TabStorage) (now N : Int) (tok es : String),
      st.accessToken = some tok → tok ≠ "" →
      st.expiresAt = some es → jsNumber es = some (now + N) →
      (getValidAccessToken st now = some tok ↔ 60000 < N)) := by
  refine ⟨getValidAccessToken_some_iff, ?_⟩
  intro st now N tok es h1 h2 h3 h4
  rw [getValidAccessToken_some_iff]
  constructor
  · rintro ⟨-, -, es', E, hes, hE, hlt⟩
    rw [h3] at hes
    cases hes
    rw [h4] at hE
    cases hE
    omega
  · intro hN
    exact ⟨h1, h2, es, now + N, h3, h4, by omega⟩

theorem token_validity_check_witness :
    (getValidAccessToken ⟨some "tok", some "120001", none, none⟩ 0 = some "tok" ↔
      60000 < (120001 : Int)) ∧
    (getValidAccessToken ⟨some "tok", some "60000", none, none⟩ 0 = some "tok" ↔
      60000 < (60000 : Int)) :=
  ⟨token_validity_check.2 ⟨some "tok", some "120001", none, none⟩ 0 120001 "tok"
      "120001" rfl (by decide) rfl (by decide),
   token_validity_check.2 ⟨some "tok", some "60000", none, none⟩ 0 60000 "tok"
      "60000" rfl (by decide) rfl (by decide)⟩

/-- C4: when a tab with no stored session consumes the handoff record, a
record whose `ts` is more than 30000 ms in the past is deleted without
copying its token; a record at most 30000 ms old has its token and expiry
copied into the tab storage (and is deleted as well). -/
theorem handoff_freshness (tab : TabStorage) (now ts : Int)
    (token expiresAt : String) (h : jsTruthy tab.accessToken = false) :
    (HANDOFF_MAX_AGE_MS < now - ts →
      consumeTabHandoff tab (some (HandoffValue.record token expiresAt ts)) now
        = (tab, none)) ∧
    (now - ts ≤ HANDOFF_MAX_AGE_MS →
      consumeTabHandoff tab (some (HandoffValue.record token expiresAt ts)) now
        = ({ tab with accessToken := some token, expiresAt := some expiresAt },
           none)) := by
  unfold consumeTabHandoff
  simp only [h, Bool.false_eq_true, if_false]
  constructor <;> intro hc
  · rw [if_pos hc]
  · rw [if_neg (by omega)]

theorem handoff_freshness_witness :
    consumeTabHandoff ⟨none, none, none, none⟩
        (some (HandoffValue.record "t" "e" (-31000))) 0
      = (⟨none, none, none, none⟩, none) ∧
    consumeTabHandoff ⟨none, none, none, none⟩
        (some (HandoffValue.record "t" "e" (-5000))) 0
      = (⟨some "t", some "e", none, none⟩, none) :=
  ⟨(handoff_freshness ⟨none, none, none, none⟩ 0 (-31000) "t" "e" rfl).1
      (by decide),
   (handoff_freshness ⟨none, none, none, none⟩ 0 (-5000) "t" "e" rfl).2
      (by decide)⟩

/-- C6: whenever the handoff record is read by a tab without a session —
adopted, discarded as stale, or failing to parse — the shared slot is left
empty, and a second read in succession finds nothing and changes nothing
(adoption happens at most once). -/
theorem handoff_consumed_at_most_once (tab : TabStorage)
    (shared : Option HandoffValue) (now now2 : Int)
    (h : jsTruthy tab.accessToken = false) :
    (consumeTabHandoff tab shared now).2 = none ∧
    consumeTabHandoff (consumeTabHandoff tab shared now).1
        (consumeTabHandoff tab shared now).2 now2 =
      ((consumeTabHandoff tab shared now).1, none) := by
  have h2 : (consumeTabHandoff tab shared now).2 = none := by
    unfold consumeTabHandoff
    simp only [h, Bool.false_eq_true, if_false]
    rcases shared with _ | hv
    · rfl
    · rcases hv with ⟨t, e, ts⟩ | _
      · dsimp only
        split <;> rfl
      · rfl
  refine ⟨h2, ?_⟩
  rw [h2]
  generalize (consumeTabHandoff tab shared now).1 = t1
  unfold consumeTabHandoff
  split <;> rfl

theorem handoff_consumed_at_most_once_witness :
    (consumeTabHandoff ⟨none, none, none, none⟩
        (some (HandoffValue.record "t" "e" 0)) 0).2 = none ∧
    consumeTabHandoff
        (consumeTabHandoff ⟨none, none, none, none⟩
          (some (HandoffValue.record "t" "e" 0)) 0).1
        (consumeTabHandoff ⟨none, none, none, none⟩
          (some (HandoffValue.record "t" "e" 0)) 0).2 7 =
      ((consumeTabHandoff ⟨none, none, none, none⟩
          (some (HandoffValue.record "t" "e" 0)) 0).1, none) :=
  handoff_consumed_at_most_once ⟨none, none, none, none⟩
    (some (HandoffValue.record "t" "e" 0)) 0 7 rfl

/-- C7: if the tab's storage already holds a (non-empty) access token,
consuming the handoff leaves the tab's storage and the shared slot entirely
unchanged — nothing is copied over the existing session. -/
theorem handoff_never_overrides (tab : TabStorage)
    (shared : Option HandoffValue) (now : Int)
    (h : jsTruthy tab.accessToken = true) :
    consumeTabHandoff tab shared now = (tab, shared) := by
  unfold consumeTabHandoff
  rw [if_pos h]

theorem handoff_never_overrides_witness :
    consumeTabHandoff ⟨some "tok", some "99", none, none⟩
        (some (HandoffValue.record "x" "y" 0)) 5 =
      (⟨some "tok", some "99", none, none⟩,
       some (HandoffValue.record "x" "y" 0)) :=
  handoff_never_overrides ⟨some "tok", some "99", none, none⟩
    (some (HandoffValue.record "x" "y" 0)) 5 rfl

/-- C10: a missing or unparsable stored expiry (including the `"NaN"` that
`setToken` stores for a non-numeric `expires_in`) can never yield a usable
token from `getValidAccessToken` nor an armed timer from
`scheduleTokenRefresh`; both are total functions of the stored state. -/
theorem corrupt_storage_safe :
    (∀ (st : TabStorage) (now : Int),
      (st.expiresAt = none ∨ ∃ es, st.expiresAt = some es ∧ jsNumber es = none) →
      getValidAccessToken st now = none ∧
        ∀ cb, scheduleTokenRefresh st now cb = ⟨none, none⟩) ∧
    (∀ (st : TabStorage) (now now2 : Int) (tok : String) (cb : Bool),
      (setToken now ⟨tok, none⟩ st).expiresAt = some "NaN" ∧
      getValidAccessToken (setToken now ⟨tok, none⟩ st) now2 = none ∧
      scheduleTokenRefresh (setToken now ⟨tok, none⟩ st) now2 cb = ⟨none, none⟩) := by
  refine ⟨expiry_unparsable_guard, ?_⟩
  intro st now now2 tok cb
  have h := expiry_unparsable_guard (setToken now ⟨tok, none⟩ st) now2
    (Or.inr ⟨"NaN", rfl, jsNumber_NaN⟩)
  exact ⟨rfl, h.1, h.2 cb⟩

theorem b64Char_mem (n : Nat) : b64Char n ∈ base64Alphabet := by
  unfold b64Char
  rcases Nat.lt_or_ge n base64Alphabet.length with h | h
  · rw [List.getD_eq_getElem _ _ h]
    exact List.getElem_mem h
  · rw [List.getD_eq_default _ _ h]
    decide

theorem b64ToUrlChar_mem : ∀ c ∈ base64Alphabet, b64ToUrlChar c ∈ base64UrlAlphabet := by
  decide

theorem base64Chunks_decomp (bs : List Nat) :
    ∃ s k, base64Chunks bs = s ++ List.replicate k '=' ∧
      ∀ c ∈ s, c ∈ base64Alphabet := by
  induction bs using base64Chunks.induct with
  | case1 => exact ⟨[], 0, rfl, by simp⟩
  | case2 a =>
      refine ⟨[b64Char (a / 4), b64Char (a % 4 * 16)], 2, rfl, ?_⟩
      intro c hc
      simp only [List.mem_cons, List.not_mem_nil, or_false] at hc
      rcases hc with rfl | rfl <;> exact b64Char_mem _
  | case3 a b =>
      refine ⟨[b64Char (a / 4), b64Char (a % 4 * 16 + b / 16),
        b64Char (b % 16 * 4)], 1, rfl, ?_⟩
      intro c hc
      simp only [List.mem_cons, List.not_mem_nil, or_false] at hc
      rcases hc with rfl | rfl | rfl <;> exact b64Char_mem _
  | case4 a b c rest ih =>
      obtain ⟨s, k, hs, hmem⟩ := ih
      refine ⟨b64Char (a / 4) :: b64Char (a % 4 * 16 + b / 16) ::
        b64Char (b % 16 * 4 + c / 64) :: b64Char (c % 64) :: s, k, ?_, ?_⟩
      · rw [base64Chunks, hs]
        simp [List.cons_append]
      · intro x hx
        simp only [List.mem_cons] at hx
        rcases hx with rfl | rfl | rfl | rfl | hx
        · exact b64Char_mem _
        · exact b64Char_mem _
        · exact b64Char_mem _
        · exact b64Char_mem _
        · exact hmem x hx

theorem base64UrlEncode_mem (bs : List Nat) :
    ∀ ch ∈ (base64UrlEncode bs).data, ch ∈ base64UrlAlphabet := by
  obtain ⟨s, k, hs, hmem⟩ := base64Chunks_decomp bs
  intro ch hch
  have hdata : (base64UrlEncode bs).data
      = dropTrailingEq ((base64Chunks bs).map b64ToUrlChar) := rfl
  rw [hdata, hs] at hch
  unfold dropTrailingEq at hch
  rw [List.map_append, List.map_replicate, show b64ToUrlChar '=' = '=' from rfl,
    List.reverse_append, List.reverse_replicate, List.dropWhile_append] at hch
  have hrep : List.dropWhile (fun c => c == '=') (List.replicate k '=') = [] := by
    induction k with
    | zero => rfl
    | succ n ihn => simp [List.replicate_succ, List.dropWhile_cons, ihn]
  rw [hrep] at hch
  simp only [List.isEmpty_nil, if_true] at hch
  rw [List.mem_reverse] at hch
  have hch2 :=
    (List.dropWhile_sublist (fun c => c == '=')).subset hch
  rw [List.mem_reverse] at hch2
  obtain ⟨c0, hc0, rfl⟩ := List.mem_map.mp hch2
  exact b64ToUrlChar_mem c0 (hmem c0 hc0)

theorem startLoginRedirect_ok_spec (cfg : Config) (sha256 : List Nat → List Nat)
    (rng : Rng) (w : World)
    (h1 : cfg.oauthClientId ≠ "") (h2 : cfg.oauthRedirectUri ≠ "") :
    (startLoginRedirect cfg sha256 rng w).err = none ∧
    (startLoginRedirect cfg sha256 rng w).world.tab.accessToken
      = w.tab.accessToken ∧
    (startLoginRedirect cfg sha256 rng w).world.tab.expiresAt
      = w.tab.expiresAt ∧
    (startLoginRedirect cfg sha256 rng w).world.url = w.url ∧
    (startLoginRedirect cfg sha256 rng w).world.shared = w.shared ∧
    ∃ u, (startLoginRedirect cfg sha256 rng w).world.navigatedTo = some u ∧
      (startLoginRedirect cfg sha256 rng w).trace
        = [Ev.pkceGenerated, Ev.navigate u] := by
  unfold startLoginRedirect
  rw [if_neg h1, if_neg h2]
  exact ⟨rfl, rfl, rfl, rfl, rfl, _, rfl, rfl⟩

theorem scheduleTokenRefresh_armed (st : TabStorage) (now E : Int) (es : String)
    (hes : st.expiresAt = some es) (hE : jsNumber es = some E) :
    scheduleTokenRefresh st now true =
      ⟨if 0 < E - 120000 - now then some (E - 120000 - now) else none,
       if 0 < E - 60000 - now then some (E - 60000 - now) else none⟩ := by
  have hne : es ≠ "" := by
    intro h
    subst h
    rw [jsNumber_empty] at hE
    cases hE
  obtain ⟨a, e, p, o⟩ := st
  dsimp only at hes
  subst hes
  unfold scheduleTokenRefresh
  dsimp only
  rw [if_neg hne, hE]
  have hw : WARNING_BEFORE_MS = 120000 := by norm_num [WARNING_BEFORE_MS]
  have hs : EXPIRY_SKEW_MS = 60000 := by norm_num [EXPIRY_SKEW_MS]
  simp only [hw, hs, and_true]

/-- C5: `scheduleTokenRefresh` arms nothing on an absent expiry (no-op
canceller); on a finite stored expiry it arms the warning timer at
`expiresAt − 120000` ms (only when still in the future) and the expiry timer
at `expiresAt − 60000` ms; the warning passes the remaining seconds computed
at fire time (within rounding of the true remainder); the expiry timer
invokes `onSessionExpired`, clears the token store, and re-initiates login;
for `expiresAt = now + 130000` the timers fire in 10 s and 70 s. -/
theorem refresh_scheduler_spec (cfg : Config) (sha256 : List Nat → List Nat)
    (rng : Rng) (w : World) (st : TabStorage) (now : Int)
    (h1 : cfg.oauthClientId ≠ "") (h2 : cfg.oauthRedirectUri ≠ "") :
    (st.expiresAt = none → ∀ cb, scheduleTokenRefresh st now cb = ⟨none, none⟩) ∧
    (∀ es E, st.expiresAt = some es → jsNumber es = some E →
      scheduleTokenRefresh st now true =
        ⟨if 0 < E - 120000 - now then some (E - 120000 - now) else none,
         if 0 < E - 60000 - now then some (E - 60000 - now) else none⟩) ∧
    (∀ es, st.expiresAt = some es → jsNumber es = some (now + 130000) →
      scheduleTokenRefresh st now true = ⟨some 10000, some 70000⟩) ∧
    (∀ E fireTime, E - fireTime - 500 ≤ 1000 * warningFireSecsLeft E fireTime ∧
      1000 * warningFireSecsLeft E fireTime ≤ E - fireTime + 500) ∧
    ((expiryTimerFire cfg sha256 rng true w).calledOnSessionExpired = true ∧
     (expiryTimerFire cfg sha256 rng true w).err = none ∧
     (expiryTimerFire cfg sha256 rng true w).world.tab.accessToken = none ∧
     (expiryTimerFire cfg sha256 rng true w).world.tab.expiresAt = none ∧
     ∃ u, (expiryTimerFire cfg sha256 rng true w).world.navigatedTo = some u) := by
  refine ⟨?_, fun es E => scheduleTokenRefresh_armed st now E es, ?_, ?_, ?_⟩
  · intro h cb
    obtain ⟨a, e, p, o⟩ := st
    dsimp only at h
    subst h
    rfl
  · intro es hes hE
    rw [scheduleTokenRefresh_armed st now (now + 130000) es hes hE,
      if_pos (by omega), if_pos (by omega)]
    simp only [RefreshTimers.mk.injEq, Option.some.injEq]
    omega
  · intro E fireTime
    have hfd : warningFireSecsLeft E fireTime = (E - fireTime + 500) / 1000 := by
      unfold warningFireSecsLeft
      rw [Int.fdiv_eq_ediv]
      omega
    constructor <;> rw [hfd] <;> omega
  · obtain ⟨herr, hat, hexp, hurl, hsh, u, hnav, htr⟩ :=
      startLoginRedirect_ok_spec cfg sha256 rng
        { w with tab := clearAuthSession w.tab } h1 h2
    exact ⟨rfl, herr, hat, hexp, u, hnav⟩

theorem boot_eq_of_mismatch (cfg : Config) (sha256 : List Nat → List Nat)
    (env : Env) (rng : Rng) (w : World) (code : String)
    (hcode : w.url.query.lookup "code" = some code) (hsm : stateMismatch w) :
    ensureAuthenticatedWithMe cfg sha256 env rng w =
      failClosedRestart cfg sha256 rng (afterHandoff env w) [] := by
  have hsm' : (w.tab.oauthState).getD "" = "" ∨
      ((w.url.query.lookup "state").getD "" ≠ (w.tab.oauthState).getD "") := hsm
  unfold ensureAuthenticatedWithMe
  dsimp only
  rw [hcode]
  dsimp only
  rw [consumeTabHandoff_oauthState]
  rw [if_pos hsm']
  rfl

theorem boot_eq_of_no_verifier (cfg : Config) (sha256 : List Nat → List Nat)
    (env : Env) (rng : Rng) (w : World) (code : String)
    (hcode : w.url.query.lookup "code" = some code) (hsm : ¬ stateMismatch w)
    (hv : jsTruthy w.tab.pkceVerifier = false) :
    ensureAuthenticatedWithMe cfg sha256 env rng w =
      failClosedRestart cfg sha256 rng (afterHandoff env w) [] := by
  have hsm' : ¬((w.tab.oauthState).getD "" = "" ∨
      ((w.url.query.lookup "state").getD "" ≠ (w.tab.oauthState).getD "")) := hsm
  unfold ensureAuthenticatedWithMe
  dsimp only
  rw [hcode]
  dsimp only
  rw [consumeTabHandoff_oauthState, if_neg hsm']
  unfold exchangeCodeForToken
  rw [consumeTabHandoff_pkceVerifier, hv]
  rfl

theorem boot_eq_of_exchange_error (cfg : Config) (sha256 : List Nat → List Nat)
    (env : Env) (rng : Rng) (w : World) (code : String) (e : String)
    (hcode : w.url.query.lookup "code" = some code) (hsm : ¬ stateMismatch w)
    (hv : jsTruthy w.tab.pkceVerifier = true)
    (hex : env.exchangeResult = Except.error e) :
    ensureAuthenticatedWithMe cfg sha256 env rng w =
      failClosedRestart cfg sha256 rng (afterHandoff env w)
        [Ev.tokenExchange code] := by
  have hsm' : ¬((w.tab.oauthState).getD "" = "" ∨
      ((w.url.query.lookup "state").getD "" ≠ (w.tab.oauthState).getD "")) := hsm
  unfold ensureAuthenticatedWithMe
  dsimp only
  rw [hcode]
  dsimp only
  rw [consumeTabHandoff_oauthState, if_neg hsm']
  unfold exchangeCodeForToken
  rw [consumeTabHandoff_pkceVerifier, hv]
  rw [if_neg (by decide), hex]
  dsimp only
  rfl

theorem boot_eq_of_me_error (cfg : Config) (sha256 : List Nat → List Nat)
    (env : Env) (rng : Rng) (w : World) (code : String)
    (token : TokenResponse) (e : String)
    (hcode : w.url.query.lookup "code" = some code) (hsm : ¬ stateMismatch w)
    (hv : jsTruthy w.tab.pkceVerifier = true)
    (hex : env.exchangeResult = Except.ok token)
    (hme : env.meResult = Except.error e) :
    ensureAuthenticatedWithMe cfg sha256 env rng w =
      failClosedRestart cfg sha256 rng (afterExchange env token w)
        [Ev.tokenExchange code, Ev.usersMeCall token.access_token] := by
  have hsm' : ¬((w.tab.oauthState).getD "" = "" ∨
      ((w.url.query.lookup "state").getD "" ≠ (w.tab.oauthState).getD "")) := hsm
  unfold ensureAuthenticatedWithMe
  dsimp only
  rw [hcode]
  dsimp only
  rw [consumeTabHandoff_oauthState, if_neg hsm']
  unfold exchangeCodeForToken
  rw [consumeTabHandoff_pkceVerifier, hv]
  rw [if_neg (by decide), hex]
  dsimp only
  rw [hme]
  rfl

theorem boot_eq_of_success (cfg : Config) (sha256 : List Nat → List Nat)
    (env : Env) (rng : Rng) (w : World) (code : String)
    (token : TokenResponse) (me : Me)
    (hcode : w.url.query.lookup "code" = some code) (hsm : ¬ stateMismatch w)
    (hv : jsTruthy w.tab.pkceVerifier = true)
    (hex : env.exchangeResult = Except.ok token)
    (hme : env.meResult = Except.ok me) :
    ensureAuthenticatedWithMe cfg sha256 env rng w =
      ⟨afterExchange env token w, rng,
       [Ev.tokenExchange code, Ev.usersMeCall token.access_token],
       Except.ok (BootResult.authenticated token.access_token me)⟩ := by
  have hsm' : ¬((w.tab.oauthState).getD "" = "" ∨
      ((w.url.query.lookup "state").getD "" ≠ (w.tab.oauthState).getD "")) := hsm
  unfold ensureAuthenticatedWithMe
  dsimp only
  rw [hcode]
  dsimp only
  rw [consumeTabHandoff_oauthState, if_neg hsm']
  unfold exchangeCodeForToken
  rw [consumeTabHandoff_pkceVerifier, hv]
  rw [if_neg (by decide), hex]
  dsimp only
  rw [hme]
  rfl

theorem failClosedRestart_ok (cfg : Config) (sha256 : List Nat → List Nat)
    (rng : Rng) (w : World) (evs : List Ev)
    (h1 : cfg.oauthClientId ≠ "") (h2 : cfg.oauthRedirectUri ≠ "") :
    (failClosedRestart cfg sha256 rng w evs).result
      = Except.ok BootResult.redirecting ∧
    (failClosedRestart cfg sha256 rng w evs).world.tab.accessToken = none ∧
    (failClosedRestart cfg sha256 rng w evs).world.tab.expiresAt = none ∧
    (failClosedRestart cfg sha256 rng w evs).world.url = w.url ∧
    Ev.clearedSession ∈ (failClosedRestart cfg sha256 rng w evs).trace ∧
    (∃ u, (failClosedRestart cfg sha256 rng w evs).world.navigatedTo = some u) ∧
    (∀ c, Ev.tokenExchange c ∈ (failClosedRestart cfg sha256 rng w evs).trace →
      Ev.tokenExchange c ∈ evs) := by
  obtain ⟨herr, hat, hexp, hurl, hsh, u, hnav, htr⟩ :=
    startLoginRedirect_ok_spec cfg sha256 rng
      { w with tab := clearAuthSession w.tab } h1 h2
  unfold failClosedRestart
  dsimp only
  refine ⟨?_, hat, hexp, hurl, ?_, ⟨u, hnav⟩, ?_⟩
  · rw [herr]
  · exact List.mem_append_right _ (List.mem_cons_self _ _)
  · intro c hc
    rcases List.mem_append.mp hc with h | h
    · exact h
    · rw [htr] at h
      simp at h

/-- C1: on every boot whose URL carries a `code`, if the stored OAuth state is
missing or differs from the returned `state`, or the token exchange fails, or
the identity check fails, then `ensureAuthenticatedWithMe` clears all four
session artifacts (`clearAuthSession` removes exactly the access token,
expiry, PKCE verifier and OAuth state; the final storage holds no token and
no expiry), re-initiates the login redirect, and returns
`{status: "redirecting"}`; in the state-mismatch (or missing-state) case the
code is never sent to the token endpoint. -/
theorem fail_closed_return_leg (cfg : Config) (sha256 : List Nat → List Nat)
    (env : Env) (rng : Rng) (w : World) (code : String)
    (h1 : cfg.oauthClientId ≠ "") (h2 : cfg.oauthRedirectUri ≠ "")
    (hcode : w.url.query.lookup "code" = some code)
    (hfail : stateMismatch w ∨ (∃ e, env.exchangeResult = Except.error e) ∨
      (∃ e, env.meResult = Except.error e)) :
    (ensureAuthenticatedWithMe cfg sha256 env rng w).result
      = Except.ok BootResult.redirecting ∧
    (ensureAuthenticatedWithMe cfg sha256 env rng w).world.tab.accessToken
      = none ∧
    (ensureAuthenticatedWithMe cfg sha256 env rng w).world.tab.expiresAt
      = none ∧
    Ev.clearedSession ∈ (ensureAuthenticatedWithMe cfg sha256 env rng w).trace ∧
    (∀ st, clearAuthSession st = ⟨none, none, none, none⟩) ∧
    (∃ u, (ensureAuthenticatedWithMe cfg sha256 env rng w).world.navigatedTo
      = some u) ∧
    (stateMismatch w →
      ∀ c, Ev.tokenExchange c ∉
        (ensureAuthenticatedWithMe cfg sha256 env rng w).trace) := by
  by_cases hsm : stateMismatch w
  · rw [boot_eq_of_mismatch cfg sha256 env rng w code hcode hsm]
    obtain ⟨hres, hat, hexp, hurl, hcl, hnav, hnx⟩ :=
      failClosedRestart_ok cfg sha256 rng (afterHandoff env w) [] h1 h2
    exact ⟨hres, hat, hexp, hcl, fun st => rfl, hnav,
      fun _ c hc => by cases hnx c hc⟩
  · cases hv : jsTruthy w.tab.pkceVerifier with
    | false =>
        rw [boot_eq_of_no_verifier cfg sha256 env rng w code hcode hsm hv]
        obtain ⟨hres, hat, hexp, hurl, hcl, hnav, hnx⟩ :=
          failClosedRestart_ok cfg sha256 rng (afterHandoff env w) [] h1 h2
        exact ⟨hres, hat, hexp, hcl, fun st => rfl, hnav,
          fun hsm' => absurd hsm' hsm⟩
    | true =>
        cases hex : env.exchangeResult with
        | error e =>
            rw [boot_eq_of_exchange_error cfg sha256 env rng w code e hcode
              hsm hv hex]
            obtain ⟨hres, hat, hexp, hurl, hcl, hnav, hnx⟩ :=
              failClosedRestart_ok cfg sha256 rng (afterHandoff env w)
                [Ev.tokenExchange code] h1 h2
            exact ⟨hres, hat, hexp, hcl, fun st => rfl, hnav,
              fun hsm' => absurd hsm' hsm⟩
        | ok token =>
            cases hme : env.meResult with
            | error e =>
                rw [boot_eq_of_me_error cfg sha256 env rng w code token e
                  hcode hsm hv hex hme]
                obtain ⟨hres, hat, hexp, hurl, hcl, hnav, hnx⟩ :=
                  failClosedRestart_ok cfg sha256 rng (afterExchange env token w)
                    [Ev.tokenExchange code, Ev.usersMeCall token.access_token]
                    h1 h2
                exact ⟨hres, hat, hexp, hcl, fun st => rfl, hnav,
                  fun hsm' => absurd hsm' hsm⟩
            | ok me =>
                exfalso
                rcases hfail with h | ⟨e, h⟩ | ⟨e, h⟩
                · exact hsm h
                · rw [hex] at h
                  cases h
                · rw [hme] at h
                  cases h

theorem fail_closed_return_leg_witness :
    (ensureAuthenticatedWithMe ⟨"login.example", "cid", "https://app/", none⟩
        (fun l => l)
        ⟨0, Except.error "boom", Except.error "boom"⟩ ⟨[[1], [2]]⟩
        ⟨⟨none, none, none, some "A"⟩, none,
         ⟨"https://app", "/", [("code", "C"), ("state", "B")], "#/r"⟩,
         none⟩).result = Except.ok BootResult.redirecting ∧
    (ensureAuthenticatedWithMe ⟨"login.example", "cid", "https://app/", none⟩
        (fun l => l)
        ⟨0, Except.error "boom", Except.error "boom"⟩ ⟨[[1], [2]]⟩
        ⟨⟨none, none, none, some "A"⟩, none,
         ⟨"https://app", "/", [("code", "C"), ("state", "B")], "#/r"⟩,
         none⟩).world.tab.accessToken = none ∧
    (ensureAuthenticatedWithMe ⟨"login.example", "cid", "https://app/", none⟩
        (fun l => l)
        ⟨0, Except.error "boom", Except.error "boom"⟩ ⟨[[1], [2]]⟩
        ⟨⟨none, none, none, some "A"⟩, none,
         ⟨"https://app", "/", [("code", "C"), ("state", "B")], "#/r"⟩,
         none⟩).world.tab.expiresAt = none ∧
    Ev.clearedSession ∈
      (ensureAuthenticatedWithMe ⟨"login.example", "cid", "https://app/", none⟩
        (fun l => l)
        ⟨0, Except.error "boom", Except.error "boom"⟩ ⟨[[1], [2]]⟩
        ⟨⟨none, none, none, some "A"⟩, none,
         ⟨"https://app", "/", [("code", "C"), ("state", "B")], "#/r"⟩,
         none⟩).trace ∧
    (∀ st, clearAuthSession st = ⟨none, none, none, none⟩) ∧
    (∃ u, (ensureAuthenticatedWithMe
        ⟨"login.example", "cid", "https://app/", none⟩ (fun l => l)
        ⟨0, Except.error "boom", Except.error "boom"⟩ ⟨[[1], [2]]⟩
        ⟨⟨none, none, none, some "A"⟩, none,
         ⟨"https://app", "/", [("code", "C"), ("state", "B")], "#/r"⟩,
         none⟩).world.navigatedTo = some u) ∧
    (stateMismatch
        ⟨⟨none, none, none, some "A"⟩, none,
         ⟨"https://app", "/", [("code", "C"), ("state", "B")], "#/r"⟩, none⟩ →
      ∀ c, Ev.tokenExchange c ∉
        (ensureAuthenticatedWithMe ⟨"login.example", "cid", "https://app/", none⟩
          (fun l => l)
          ⟨0, Except.error "boom", Except.error "boom"⟩ ⟨[[1], [2]]⟩
          ⟨⟨none, none, none, some "A"⟩, none,
           ⟨"https://app", "/", [("code", "C"), ("state", "B")], "#/r"⟩,
           none⟩).trace) :=
  fail_closed_return_leg ⟨"login.example", "cid", "https://app/", none⟩
    (fun l => l) ⟨0, Except.error "boom", Except.error "boom"⟩ ⟨[[1], [2]]⟩
    ⟨⟨none, none, none, some "A"⟩, none,
     ⟨"https://app", "/", [("code", "C"), ("state", "B")], "#/r"⟩, none⟩
    "C" (by decide) (by decide) (by decide)
    (Or.inl (by decide))

theorem startLoginRedirect_url (cfg : Config) (sha256 : List Nat → List Nat)
    (rng : Rng) (w : World) :
    (startLoginRedirect cfg sha256 rng w).world.url = w.url := by
  unfold startLoginRedirect
  split_ifs <;> rfl

theorem failClosedRestart_url (cfg : Config) (sha256 : List Nat → List Nat)
    (rng : Rng) (w : World) (evs : List Ev) :
    (failClosedRestart cfg sha256 rng w evs).world.url = w.url := by
  unfold failClosedRestart
  dsimp only
  exact startLoginRedirect_url cfg sha256 rng { w with tab := clearAuthSession w.tab }

theorem startLoginRedirect_config_fail (cfg : Config)
    (sha256 : List Nat → List Nat) (rng : Rng) (w : World)
    (hbad : cfg.oauthClientId = "" ∨ cfg.oauthRedirectUri = "") :
    ∃ e, startLoginRedirect cfg sha256 rng w = ⟨w, rng, [], some e⟩ := by
  unfold startLoginRedirect
  by_cases h1 : cfg.oauthClientId = ""
  · rw [if_pos h1]
    exact ⟨_, rfl⟩
  · rcases hbad with h | h
    · exact absurd h h1
    · rw [if_neg h1, if_pos h]
      exact ⟨_, rfl⟩

theorem failClosedRestart_config_fail (cfg : Config)
    (sha256 : List Nat → List Nat) (rng : Rng) (w : World) (evs : List Ev)
    (hbad : cfg.oauthClientId = "" ∨ cfg.oauthRedirectUri = "") :
    ∃ e, failClosedRestart cfg sha256 rng w evs =
      ⟨{ w with tab := clearAuthSession w.tab }, rng,
       evs ++ [Ev.clearedSession], Except.error e⟩ := by
  obtain ⟨e, hslr⟩ := startLoginRedirect_config_fail cfg sha256 rng
    { w with tab := clearAuthSession w.tab } hbad
  unfold failClosedRestart
  dsimp only
  rw [hslr]
  exact ⟨e, rfl⟩

theorem boot_eq_of_reuse_ok (cfg : Config) (sha256 : List Nat → List Nat)
    (env : Env) (rng : Rng) (w : World) (tok : String) (me : Me)
    (hnc : w.url.query.lookup "code" = none)
    (htok : getValidAccessToken (afterHandoff env w).tab env.now = some tok)
    (hme : env.meResult = Except.ok me) :
    ensureAuthenticatedWithMe cfg sha256 env rng w =
      ⟨afterHandoff env w, rng, [Ev.usersMeCall tok],
       Except.ok (BootResult.authenticated tok me)⟩ := by
  have htok' : getValidAccessToken
      (consumeTabHandoff w.tab w.shared env.now).1 env.now = some tok := htok
  unfold ensureAuthenticatedWithMe
  dsimp only
  rw [hnc]
  dsimp only
  rw [htok']
  dsimp only
  rw [hme]
  rfl

theorem boot_eq_of_reuse_error (cfg : Config) (sha256 : List Nat → List Nat)
    (env : Env) (rng : Rng) (w : World) (tok e : String)
    (hnc : w.url.query.lookup "code" = none)
    (htok : getValidAccessToken (afterHandoff env w).tab env.now = some tok)
    (hme : env.meResult = Except.error e) :
    ensureAuthenticatedWithMe cfg sha256 env rng w =
      failClosedRestart cfg sha256 rng (afterHandoff env w)
        [Ev.usersMeCall tok] := by
  have htok' : getValidAccessToken
      (consumeTabHandoff w.tab w.shared env.now).1 env.now = some tok := htok
  unfold ensureAuthenticatedWithMe
  dsimp only
  rw [hnc]
  dsimp only
  rw [htok']
  dsimp only
  rw [hme]
  rfl

theorem boot_eq_of_no_token (cfg : Config) (sha256 : List Nat → List Nat)
    (env : Env) (rng : Rng) (w : World)
    (hnc : w.url.query.lookup "code" = none)
    (htok : getValidAccessToken (afterHandoff env w).tab env.now = none) :
    ensureAuthenticatedWithMe cfg sha256 env rng w =
      ⟨(startLoginRedirect cfg sha256 rng (afterHandoff env w)).world,
       (startLoginRedirect cfg sha256 rng (afterHandoff env w)).rng,
       (startLoginRedirect cfg sha256 rng (afterHandoff env w)).trace,
       match (startLoginRedirect cfg sha256 rng (afterHandoff env w)).err with
       | some e => Except.error e
       | none => Except.ok BootResult.redirecting⟩ := by
  have htok' : getValidAccessToken
      (consumeTabHandoff w.tab w.shared env.now).1 env.now = none := htok
  unfold ensureAuthenticatedWithMe
  dsimp only
  rw [hnc]
  dsimp only
  rw [htok']
  rfl

theorem mainOutcome_of_error (b : BootOut) (e : String)
    (h : b.result = Except.error e) :
    mainOutcome b = MainOutcome.fatalError e := by
  unfold mainOutcome
  rw [h]

/-- C8: on a successful code exchange (valid state, verifier present, token
endpoint accepts), the boot rewrites the visible URL: every query parameter —
in particular `code` and `state` — is stripped, while origin, path and the
fragment (hash route) are preserved unchanged. -/
theorem url_cleanup_after_exchange (cfg : Config) (sha256 : List Nat → List Nat)
    (env : Env) (rng : Rng) (w : World) (code : String) (token : TokenResponse)
    (hcode : w.url.query.lookup "code" = some code)
    (hsm : ¬ stateMismatch w)
    (hv : jsTruthy w.tab.pkceVerifier = true)
    (hex : env.exchangeResult = Except.ok token) :
    (ensureAuthenticatedWithMe cfg sha256 env rng w).world.url.query = [] ∧
    (ensureAuthenticatedWithMe cfg sha256 env rng w).world.url.query.lookup
      "code" = none ∧
    (ensureAuthenticatedWithMe cfg sha256 env rng w).world.url.query.lookup
      "state" = none ∧
    (ensureAuthenticatedWithMe cfg sha256 env rng w).world.url.hash
      = w.url.hash ∧
    (ensureAuthenticatedWithMe cfg sha256 env rng w).world.url.origin
      = w.url.origin ∧
    (ensureAuthenticatedWithMe cfg sha256 env rng w).world.url.pathname
      = w.url.pathname := by
  cases hme : env.meResult with
  | ok me =>
      rw [boot_eq_of_success cfg sha256 env rng w code token me hcode hsm hv
        hex hme]
      exact ⟨rfl, rfl, rfl, rfl, rfl, rfl⟩
  | error e =>
      rw [boot_eq_of_me_error cfg sha256 env rng w code token e hcode hsm hv
        hex hme]
      rw [failClosedRestart_url cfg sha256 rng (afterExchange env token w)
        [Ev.tokenExchange code, Ev.usersMeCall token.access_token]]
      exact ⟨rfl, rfl, rfl, rfl, rfl, rfl⟩

theorem url_cleanup_after_exchange_witness :
    (ensureAuthenticatedWithMe ⟨"login.example", "cid", "https://app/", none⟩
        (fun l => l)
        ⟨0, Except.ok ⟨"tok", some 3600⟩, Except.ok ⟨"Ann"⟩⟩ ⟨[]⟩
        ⟨⟨none, none, some "V", some "S"⟩, none,
         ⟨"https://app", "/", [("code", "C"), ("state", "S")], "#/route"⟩,
         none⟩).world.url.query = [] ∧
    (ensureAuthenticatedWithMe ⟨"login.example", "cid", "https://app/", none⟩
        (fun l => l)
        ⟨0, Except.ok ⟨"tok", some 3600⟩, Except.ok ⟨"Ann"⟩⟩ ⟨[]⟩
        ⟨⟨none, none, some "V", some "S"⟩, none,
         ⟨"https://app", "/", [("code", "C"), ("state", "S")], "#/route"⟩,
         none⟩).world.url.query.lookup "code" = none ∧
    (ensureAuthenticatedWithMe ⟨"login.example", "cid", "https://app/", none⟩
        (fun l => l)
        ⟨0, Except.ok ⟨"tok", some 3600⟩, Except.ok ⟨"Ann"⟩⟩ ⟨[]⟩
        ⟨⟨none, none, some "V", some "S"⟩, none,
         ⟨"https://app", "/", [("code", "C"), ("state", "S")], "#/route"⟩,
         none⟩).world.url.query.lookup "state" = none ∧
    (ensureAuthenticatedWithMe ⟨"login.example", "cid", "https://app/", none⟩
        (fun l => l)
        ⟨0, Except.ok ⟨"tok", some 3600⟩, Except.ok ⟨"Ann"⟩⟩ ⟨[]⟩
        ⟨⟨none, none, some "V", some "S"⟩, none,
         ⟨"https://app", "/", [("code", "C"), ("state", "S")], "#/route"⟩,
         none⟩).world.url.hash = "#/route" ∧
    (ensureAuthenticatedWithMe ⟨"login.example", "cid", "https://app/", none⟩
        (fun l => l)
        ⟨0, Except.ok ⟨"tok", some 3600⟩, Except.ok ⟨"Ann"⟩⟩ ⟨[]⟩
        ⟨⟨none, none, some "V", some "S"⟩, none,
         ⟨"https://app", "/", [("code", "C"), ("state", "S")], "#/route"⟩,
         none⟩).world.url.origin = "https://app" ∧
    (ensureAuthenticatedWithMe ⟨"login.example", "cid", "https://app/", none⟩
        (fun l => l)
        ⟨0, Except.ok ⟨"tok", some 3600⟩, Except.ok ⟨"Ann"⟩⟩ ⟨[]⟩
        ⟨⟨none, none, some "V", some "S"⟩, none,
         ⟨"https://app", "/", [("code", "C"), ("state", "S")], "#/route"⟩,
         none⟩).world.url.pathname = "/" :=
  url_cleanup_after_exchange ⟨"login.example", "cid", "https://app/", none⟩
    (fun l => l) ⟨0, Except.ok ⟨"tok", some 3600⟩, Except.ok ⟨"Ann"⟩⟩ ⟨[]⟩
    ⟨⟨none, none, some "V", some "S"⟩, none,
     ⟨"https://app", "/", [("code", "C"), ("state", "S")], "#/route"⟩, none⟩
    "C" ⟨"tok", some 3600⟩ (by decide) (by decide) (by decide) rfl

/-- C9: with a missing OAuth client id or redirect URI, every call of
`startLoginRedirect` throws before drawing entropy for a PKCE pair, before
persisting anything, and before navigating (world, entropy source, and event
trace all unchanged); under such a configuration the boot never returns
`{status: "redirecting"}` and never navigates, and whenever the boot
propagates an error, `main` renders the in-page fatal error with it. -/
theorem config_error_fail_fast (cfg : Config) (sha256 : List Nat → List Nat)
    (hbad : cfg.oauthClientId = "" ∨ cfg.oauthRedirectUri = "") :
    (∀ rng w, ∃ e, startLoginRedirect cfg sha256 rng w = ⟨w, rng, [], some e⟩) ∧
    (∀ env rng w,
      (ensureAuthenticatedWithMe cfg sha256 env rng w).result
        ≠ Except.ok BootResult.redirecting ∧
      (ensureAuthenticatedWithMe cfg sha256 env rng w).world.navigatedTo
        = w.navigatedTo) ∧
    (∀ (b : BootOut) (e : String), b.result = Except.error e →
      mainOutcome b = MainOutcome.fatalError e) := by
  refine ⟨fun rng w => startLoginRedirect_config_fail cfg sha256 rng w hbad,
    ?_, mainOutcome_of_error⟩
  intro env rng w
  cases hc : w.url.query.lookup "code" with
  | some code =>
      by_cases hsm : stateMismatch w
      · rw [boot_eq_of_mismatch cfg sha256 env rng w code hc hsm]
        obtain ⟨e, hfc⟩ := failClosedRestart_config_fail cfg sha256 rng
          (afterHandoff env w) [] hbad
        rw [hfc]
        exact ⟨by simp, rfl⟩
      · cases hv : jsTruthy w.tab.pkceVerifier with
        | false =>
            rw [boot_eq_of_no_verifier cfg sha256 env rng w code hc hsm hv]
            obtain ⟨e, hfc⟩ := failClosedRestart_config_fail cfg sha256 rng
              (afterHandoff env w) [] hbad
            rw [hfc]
            exact ⟨by simp, rfl⟩
        | true =>
            cases hex : env.exchangeResult with
            | error e =>
                rw [boot_eq_of_exchange_error cfg sha256 env rng w code e hc
                  hsm hv hex]
                obtain ⟨e2, hfc⟩ := failClosedRestart_config_fail cfg sha256 rng
                  (afterHandoff env w) [Ev.tokenExchange code] hbad
                rw [hfc]
                exact ⟨by simp, rfl⟩
            | ok token =>
                cases hme : env.meResult with
                | ok me =>
                    rw [boot_eq_of_success cfg sha256 env rng w code token me
                      hc hsm hv hex hme]
                    exact ⟨by simp, rfl⟩
                | error e =>
                    rw [boot_eq_of_me_error cfg sha256 env rng w code token e
                      hc hsm hv hex hme]
                    obtain ⟨e2, hfc⟩ := failClosedRestart_config_fail cfg sha256
                      rng (afterExchange env token w)
                      [Ev.tokenExchange code, Ev.usersMeCall token.access_token]
                      hbad
                    rw [hfc]
                    exact ⟨by simp, rfl⟩
  | none =>
      cases htok : getValidAccessToken (afterHandoff env w).tab env.now with
      | some tok =>
          cases hme : env.meResult with
          | ok me =>
              rw [boot_eq_of_reuse_ok cfg sha256 env rng w tok me hc htok hme]
              exact ⟨by simp, rfl⟩
          | error e =>
              rw [boot_eq_of_reuse_error cfg sha256 env rng w tok e hc htok hme]
              obtain ⟨e2, hfc⟩ := failClosedRestart_config_fail cfg sha256 rng
                (afterHandoff env w) [Ev.usersMeCall tok] hbad
              rw [hfc]
              exact ⟨by simp, rfl⟩
      | none =>
          rw [boot_eq_of_no_token cfg sha256 env rng w hc htok]
          obtain ⟨e, hslr⟩ := startLoginRedirect_config_fail cfg sha256 rng
            (afterHandoff env w) hbad
          rw [hslr]
          exact ⟨by simp, rfl⟩

theorem config_error_fail_fast_witness :
    ∃ e, startLoginRedirect ⟨"login.example", "", "https://app/", none⟩
        (fun l => l) ⟨[[7]]⟩
        ⟨⟨none, none, none, none⟩, none, ⟨"", "", [], ""⟩, none⟩ =
      ⟨⟨⟨none, none, none, none⟩, none, ⟨"", "", [], ""⟩, none⟩,
       ⟨[[7]]⟩, [], some e⟩ :=
  (config_error_fail_fast ⟨"login.example", "", "https://app/", none⟩
      (fun l => l) (Or.inl rfl)).1 ⟨[[7]]⟩
    ⟨⟨none, none, none, none⟩, none, ⟨"", "", [], ""⟩, none⟩

theorem refresh_scheduler_spec_witness :
    scheduleTokenRefresh ⟨none, some "130000", none, none⟩ 0 true
      = ⟨some 10000, some 70000⟩ :=
  (refresh_scheduler_spec ⟨"login.example", "cid", "https://app/", none⟩
      (fun l => l) ⟨[]⟩
      ⟨⟨none, none, none, none⟩, none, ⟨"", "", [], ""⟩, none⟩
      ⟨none, some "130000", none, none⟩ 0 (by decide) (by decide)).2.2.1
    "130000" rfl (by decide)

/-- C3: `buildPkce` produces a verifier that is the base64url-without-padding
encoding (every output character is in the base64url alphabet, no `=`
padding) of the 32 bytes drawn from the entropy source, and a challenge that
is the base64url encoding of the digest of the verifier's text-encoded bytes
— so independently hashing and encoding the verifier reproduces the challenge
exactly. -/
theorem pkce_roundtrip (sha256 : List Nat → List Nat) (rng : Rng)
    (d : List Nat) (hd : rng.draws.head? = some d) (hlen : d.length = 32) :
    (randomBytes 32 rng).1 = d ∧
    (buildPkce sha256 rng).1.1 = base64UrlEncode d ∧
    (buildPkce sha256 rng).1.2 =
      base64UrlEncode (sha256 (textEncoderBytes (buildPkce sha256 rng).1.1)) ∧
    ∀ bs ch, ch ∈ (base64UrlEncode bs).data → ch ∈ base64UrlAlphabet := by
  have hdr : (randomBytes 32 rng).1 = d := by
    obtain ⟨draws⟩ := rng
    cases draws with
    | nil => cases hd
    | cons d0 rest =>
        simp only [List.head?_cons, Option.some.injEq] at hd
        subst hd
        show (d0 ++ List.replicate 32 0).take 32 = d0
        rw [← hlen, List.take_left]
  refine ⟨hdr, ?_, rfl, fun bs ch => base64UrlEncode_mem bs ch⟩
  rw [show (buildPkce sha256 rng).1.1
      = base64UrlEncode (randomBytes 32 rng).1 from rfl, hdr]

theorem pkce_roundtrip_witness :
    (randomBytes 32 ⟨[List.range 32]⟩).1 = List.range 32 ∧
    (buildPkce (fun l => l) ⟨[List.range 32]⟩).1.1
      = base64UrlEncode (List.range 32) ∧
    (buildPkce (fun l => l) ⟨[List.range 32]⟩).1.2 =
      base64UrlEncode ((fun l => l)
        (textEncoderBytes (buildPkce (fun l => l) ⟨[List.range 32]⟩).1.1)) ∧
    (∀ bs ch, ch ∈ (base64UrlEncode bs).data → ch ∈ base64UrlAlphabet) :=
  pkce_roundtrip (fun l => l) ⟨[List.range 32]⟩ (List.range 32) rfl (by decide)

theorem corrupt_storage_safe_witness :
    getValidAccessToken ⟨some "tok", some "garbage", none, none⟩ 0 = none ∧
    scheduleTokenRefresh ⟨some "tok", some "garbage", none, none⟩ 0 true
      = ⟨none, none⟩ :=
  ⟨(corrupt_storage_safe.1 ⟨some "tok", some "garbage", none, none⟩ 0
      (Or.inr ⟨"garbage", rfl, by decide⟩)).1,
   (corrupt_storage_safe.1 ⟨some "tok", some "garbage", none, none⟩ 0
      (Or.inr ⟨"garbage", rfl, by decide⟩)).2 true⟩
